import Mathlib

/-!
Shallow embedding of the `meta_ads_mcp.meta_api_client` core: the error
classification table and `handle_error_response` (utils.py), the retry
wrapper `meta_request_handler` (utils.py), and the batch client
`make_graph_api_batch_call` / `build_relative_url` (client.py).
-/

namespace MetaAdsMcp

/-- JSON values as exchanged with the upstream API.  Numeric literals are
modelled as integers: every numeric value appearing in the client core
(classification codes, HTTP status codes, the payloads of the claims) is
integral. -/
inductive Json where
  | null
  | bool (b : Bool)
  | num (n : Int)
  | str (s : String)
  | arr (items : List Json)
  | obj (fields : List (String × Json))

/-- Python `dict.get(k)` / `k in d` on a JSON object, modelled as first-match
lookup in the association list (Python dicts have unique keys). -/
def dictGet (fields : List (String × Json)) (k : String) : Option Json :=
  match fields with
  | [] => none
  | (k2, v) :: rest => if k2 = k then some v else dictGet rest k

/-- Python `d[k] = v` on a JSON object: replace the value in place if the key
exists (order preserved), otherwise append the new key. -/
def dictSet (fields : List (String × Json)) (k : String) (v : Json) :
    List (String × Json) :=
  match fields with
  | [] => [(k, v)]
  | (k2, v2) :: rest =>
    if k2 = k then (k2, v) :: rest else (k2, v2) :: dictSet rest k v

/-- The exception taxonomy of `errors.py`.  `metaApiErrorBody` is
`MetaApiError` constructed with a detailed-error mapping (utils.py:90 and
utils.py raising with a dict), `metaApiErrorMsg` is `MetaApiError`
constructed with a plain message string (utils.py:53, utils.py:59).
In the spec's vocabulary `tooManyRequestsError` is `RateLimited` and the
two `metaApiError` forms are `GenericApiError`. -/
inductive Failure where
  | serverError (body : Json)
  | tooManyRequestsError (body : Json)
  | authenticationError (body : Json)
  | notFoundError (body : Json)
  | metaApiErrorBody (body : Json)
  | metaApiErrorMsg (msg : String)

/-- The exception class selected by the classification table, before it is
applied to the detailed-error body. -/
inductive ExcClass where
  | tooManyRequestsError
  | authenticationError
  | notFoundError
  | metaApiError
  deriving DecidableEq

/-- utils.py:24-31: the classification table `EXCEPTION_MAPPING`. -/
def EXCEPTION_MAPPING : List (Int × ExcClass) :=
  [(4, .tooManyRequestsError),
   (17, .tooManyRequestsError),
   (190, .authenticationError),
   (102, .authenticationError),
   (104, .authenticationError),
   (803, .notFoundError)]

/-- utils.py:70: `EXCEPTION_MAPPING.get(error_code, MetaApiError)`.
`error_code` is whatever JSON value sat under `"code"` (or `None` when the
key was absent); only an integer can match the integer keys of the table. -/
def mappingGet (errorCode : Option Json) : ExcClass :=
  match errorCode with
  | some (.num n) => (EXCEPTION_MAPPING.lookup n).getD .metaApiError
  | _ => .metaApiError

/-- Applying the selected exception class to the detailed-error body
(utils.py:90 `raise exception_class(detailed_error)`). -/
def ExcClass.raise (c : ExcClass) (body : Json) : Failure :=
  match c with
  | .tooManyRequestsError => .tooManyRequestsError body
  | .authenticationError => .authenticationError body
  | .notFoundError => .notFoundError body
  | .metaApiError => .metaApiErrorBody body

/-- utils.py:73-88: the fields of the inner `"error"` object of
`detailed_error`: always `message` (defaulting to `"Unknown error"`) and
`code` (the raw value, `None` i.e. `null` when absent), then each optional
field appended when present upstream. -/
def detailedErrorFields (errorInfo : List (String × Json))
    (errorCode : Option Json) : List (String × Json) :=
  let base : List (String × Json) :=
    [("message", (dictGet errorInfo "message").getD (.str "Unknown error")),
     ("code", errorCode.getD .null)]
  let f1 := match dictGet errorInfo "error_subcode" with
    | some v => base ++ [("error_subcode", v)]
    | none => base
  let f2 := match dictGet errorInfo "error_user_title" with
    | some v => f1 ++ [("error_user_title", v)]
    | none => f1
  let f3 := match dictGet errorInfo "error_user_msg" with
    | some v => f2 ++ [("error_user_msg", v)]
    | none => f2
  match dictGet errorInfo "fbtrace_id" with
  | some v => f3 ++ [("fbtrace_id", v)]
  | none => f3

/-- utils.py:72-88: the `detailed_error` mapping rebuilt from the upstream
`error` object. -/
def detailedError (errorInfo : List (String × Json)) (errorCode : Option Json) :
    Json :=
  Json.obj [("error", Json.obj (detailedErrorFields errorInfo errorCode))]

/-- Outcome of `handle_error_response` (utils.py:64-90): it returns normally
when `"error"` is not in the response, raises a classified exception
otherwise; when the `error` value is not a dict, Python's
`error_info.get(...)` raises `AttributeError`. -/
inductive HandleErrorResult where
  | returned
  | raised (f : Failure)
  | attributeError

/-- utils.py:64-90: `handle_error_response`.  The argument is the parsed JSON
body, an object per the function's declared `Dict` signature. -/
def handle_error_response (response : List (String × Json)) : HandleErrorResult :=
  match dictGet response "error" with
  | none => .returned
  | some (.obj errorInfo) =>
    let errorCode := dictGet errorInfo "code"
    .raised ((mappingGet errorCode).raise (detailedError errorInfo errorCode))
  | some _ => .attributeError

/-- One transport-level outcome of the wrapped coroutine (utils.py:44-46):
either the call returned parsed JSON, or `raise_for_status` raised an
`httpx.HTTPStatusError` carrying its message text and the error response's
body — `none` when the body is not valid JSON (utils.py:50-52), otherwise
the parsed object (an object, per `handle_error_response`'s declared `Dict`
signature). -/
inductive HttpResult where
  | success (body : Json)
  | statusError (detail : String) (body : Option (List (String × Json)))

/-- An exception escaping the wrapper: a typed `Failure` from errors.py, or a
Python-level crash (`AttributeError` from `.get` on a non-dict,
`TypeError` from `json.loads` on a non-string). -/
inductive PyExn where
  | failure (f : Failure)
  | attributeError
  | typeError

/-- utils.py:44-59: one attempt of the wrapped coroutine.  A 2xx result is
returned as is; a status error with a non-JSON body raises
`MetaApiError(f"HTTP error occurred: {str(e)} with non-JSON response")`;
otherwise `handle_error_response` classifies the body, and when it returns
without raising (no `error` key) the wrapper raises
`MetaApiError(f"HTTP error occurred: {str(e)}")` (utils.py:59). -/
def attemptOnce (r : HttpResult) : Except PyExn Json :=
  match r with
  | .success body => .ok body
  | .statusError detail none =>
    .error (.failure (.metaApiErrorMsg
      ("HTTP error occurred: " ++ detail ++ " with non-JSON response")))
  | .statusError detail (some body) =>
    match handle_error_response body with
    | .raised f => .error (.failure f)
    | .attributeError => .error .attributeError
    | .returned => .error (.failure (.metaApiErrorMsg ("HTTP error occurred: " ++ detail)))

/-- utils.py:39-42: the tenacity retry predicate
`retry_if_exception_type(ServerError) | retry_if_exception_type(TooManyRequestsError)`. -/
def isRetryable (e : PyExn) : Bool :=
  match e with
  | .failure (.serverError _) => true
  | .failure (.tooManyRequestsError _) => true
  | _ => false

/-- The tenacity loop of utils.py:35-43, instrumented with the number of
invocations of the wrapped coroutine.  `transport i` is the transport-level
outcome of the i-th invocation (0-based); `left` is the number of further
attempts the `stop_after_attempt` bound still allows after the current one.
After a failed attempt, tenacity retries only when the exception satisfies
the retry predicate and the attempt count has not reached the bound;
`reraise=True` re-raises the last exception itself on exhaustion. -/
def retryLoop (transport : Nat → HttpResult) : Nat → Nat → Except PyExn Json × Nat
  | idx, left =>
    match attemptOnce (transport idx) with
    | .ok v => (.ok v, 1)
    | .error e =>
      match left with
      | 0 => (.error e, 1)
      | l + 1 =>
        if isRetryable e then
          let next := retryLoop transport (idx + 1) l
          (next.1, next.2 + 1)
        else (.error e, 1)

/-- utils.py:34-61: `meta_request_handler` with
`stop_after_attempt(maxRetries)`, applied to a transport whose i-th
invocation yields `transport i`: the first attempt always runs, and at
most `maxRetries - 1` further attempts follow.  Returns the final outcome
together with the number of transport invocations performed. -/
def meta_request_handler (maxRetries : Nat) (transport : Nat → HttpResult) :
    Except PyExn Json × Nat :=
  retryLoop transport 0 (maxRetries - 1)

/-- JSON whitespace. -/
def isJsonWs (c : Char) : Bool :=
  c = ' ' || c = '\t' || c = '\n' || c = '\r'

/-- Drop leading JSON whitespace. -/
def skipWs : List Char → List Char
  | [] => []
  | c :: cs => if isJsonWs c then skipWs cs else c :: cs

/-- Value of a hexadecimal digit. -/
def hexDigitVal (c : Char) : Option Nat :=
  if '0' ≤ c ∧ c ≤ '9' then some (c.toNat - '0'.toNat)
  else if 'a' ≤ c ∧ c ≤ 'f' then some (c.toNat - 'a'.toNat + 10)
  else if 'A' ≤ c ∧ c ≤ 'F' then some (c.toNat - 'A'.toNat + 10)
  else none

/-- A single-character JSON string escape. -/
def escChar (c : Char) : Option Char :=
  if c = '"' then some '"'
  else if c = '\\' then some '\\'
  else if c = '/' then some '/'
  else if c = 'b' then some (Char.ofNat 8)
  else if c = 'f' then some (Char.ofNat 12)
  else if c = 'n' then some '\n'
  else if c = 'r' then some '\r'
  else if c = 't' then some '\t'
  else none

/-- Body of a JSON string literal, after the opening quote: the decoded
characters and the remaining input after the closing quote.  Unescaped
control characters are rejected, as in strict-mode `json.loads`. -/
def parseStringBody : List Char → Option (List Char × List Char)
  | [] => none
  | '"' :: cs => some ([], cs)
  | '\\' :: 'u' :: a :: b :: c :: d :: cs =>
    (match hexDigitVal a, hexDigitVal b, hexDigitVal c, hexDigitVal d with
     | some x1, some x2, some x3, some x4 =>
       match parseStringBody cs with
       | some (content, rest) =>
         some (Char.ofNat (((x1 * 16 + x2) * 16 + x3) * 16 + x4) :: content, rest)
       | none => none
     | _, _, _, _ => none)
  | '\\' :: e :: cs =>
    (match escChar e with
     | some ec =>
       match parseStringBody cs with
       | some (content, rest) => some (ec :: content, rest)
       | none => none
     | none => none)
  | c :: cs =>
    if c.toNat < 32 then none
    else
      match parseStringBody cs with
      | some (content, rest) => some (c :: content, rest)
      | none => none

/-- Digits of a decimal literal to a natural number. -/
def digitsToNat (ds : List Char) : Nat :=
  ds.foldl (fun acc c => acc * 10 + (c.toNat - '0'.toNat)) 0

/-- A JSON numeric literal.  Restricted to the integer fragment: literals
with a fraction or exponent (which `json.loads` would return as floats) are
outside the model — no value in the client core or the claims is
non-integral. -/
def parseNumber (cs : List Char) : Option (Json × List Char) :=
  let (neg, cs1) := match cs with
    | '-' :: rest => (true, rest)
    | _ => (false, cs)
  let ds := cs1.takeWhile Char.isDigit
  let rest := cs1.dropWhile Char.isDigit
  if ds.isEmpty then none
  else if ds.length > 1 && ds.headD '0' = '0' then none
  else
    match rest with
    | '.' :: _ => none
    | 'e' :: _ => none
    | 'E' :: _ => none
    | _ =>
      let n : Int := Int.ofNat (digitsToNat ds)
      some (.num (if neg then -n else n), rest)

mutual

/-- A JSON value: fuel-indexed recursive-descent parser. -/
def parseValue : Nat → List Char → Option (Json × List Char)
  | 0, _ => none
  | fuel + 1, cs =>
    match skipWs cs with
    | '{' :: rest =>
      (match skipWs rest with
       | '}' :: rest2 => some (.obj [], rest2)
       | _ =>
         match parseMembers fuel rest with
         | some (fields, rest2) => some (.obj fields, rest2)
         | none => none)
    | '[' :: rest =>
      (match skipWs rest with
       | ']' :: rest2 => some (.arr [], rest2)
       | _ =>
         match parseElements fuel rest with
         | some (items, rest2) => some (.arr items, rest2)
         | none => none)
    | '"' :: rest =>
      (match parseStringBody rest with
       | some (content, rest2) => some (.str (String.mk content), rest2)
       | none => none)
    | 't' :: 'r' :: 'u' :: 'e' :: rest => some (.bool true, rest)
    | 'f' :: 'a' :: 'l' :: 's' :: 'e' :: rest => some (.bool false, rest)
    | 'n' :: 'u' :: 'l' :: 'l' :: rest => some (.null, rest)
    | cs2 => parseNumber cs2

/-- The members of a JSON object, up to and including the closing brace. -/
def parseMembers : Nat → List Char → Option (List (String × Json) × List Char)
  | 0, _ => none
  | fuel + 1, cs =>
    match skipWs cs with
    | '"' :: rest =>
      (match parseStringBody rest with
       | some (key, rest2) =>
         (match skipWs rest2 with
          | ':' :: rest3 =>
            (match parseValue fuel rest3 with
             | some (v, rest4) =>
               (match skipWs rest4 with
                | ',' :: rest5 =>
                  (match parseMembers fuel rest5 with
                   | some (fields, rest6) => some ((String.mk key, v) :: fields, rest6)
                   | none => none)
                | '}' :: rest5 => some ([(String.mk key, v)], rest5)
                | _ => none)
             | none => none)
          | _ => none)
       | none => none)
    | _ => none

/-- The elements of a JSON array, up to and including the closing bracket. -/
def parseElements : Nat → List Char → Option (List Json × List Char)
  | 0, _ => none
  | fuel + 1, cs =>
    match parseValue fuel cs with
    | some (v, rest) =>
      (match skipWs rest with
       | ',' :: rest2 =>
         (match parseElements fuel rest2 with
          | some (items, rest3) => some (v :: items, rest3)
          | none => none)
       | ']' :: rest2 => some ([v], rest2)
       | _ => none)
    | none => none

end

/-- Models `json.loads` on a string: parse one JSON value and require the
remainder to be whitespace.  Every recursive step consumes input, so fuel
`length + 1` never runs out. -/
def parseJson (s : String) : Option Json :=
  match parseValue (s.length + 1) s.toList with
  | some (v, rest) => if skipWs rest = [] then some v else none
  | none => none

/-- Python truthiness of a JSON value (`if batch_response.get("body"):`). -/
def truthy : Json → Bool
  | .null => false
  | .bool b => b
  | .num n => n != 0
  | .str s => !s.isEmpty
  | .arr items => !items.isEmpty
  | .obj fields => !fields.isEmpty

/-- Python truthiness of a `dict.get` result (`None` is falsy). -/
def truthyOpt : Option Json → Bool
  | none => false
  | some v => truthy v

/-- Python `batch_response.get("code") == 200`. -/
def isCode200 : Option Json → Bool
  | some (.num n) => n == 200
  | _ => false

/-- One batch sub-request descriptor (client.py:63-67): an HTTP method and a
relative URL. -/
structure BatchItem where
  method : String
  relative_url : String

/-- The form body of one physical batch POST (client.py:89-92): the access
token once per physical call, and the chunk of sub-request descriptors
(serialized with `json.dumps` on the wire; kept structured here). -/
structure BatchPayload where
  access_token : String
  batch : List BatchItem

/-- client.py:81: `BATCH_LIMIT = 50`. -/
def BATCH_LIMIT : Nat := 50

/-- Python `range(start, stop, step)` for a positive step (client.py:85). -/
def pyRange (start stop step : Nat) : List Nat :=
  if _h : start < stop ∧ 0 < step then
    start :: pyRange (start + step) stop step
  else []
termination_by stop - start
decreasing_by omega

/-- client.py:102-111: best-effort re-parse of one sub-response `body`.
A string body is fed to `json.loads`: on success the parsed value replaces
it, on `JSONDecodeError` the raw string is kept; `json.loads` on a
non-string raises `TypeError`. -/
def tryReparseBody (fields : List (String × Json)) : Except PyExn Json :=
  match dictGet fields "body" with
  | some (.str s) =>
    (match parseJson s with
     | some v => .ok (.obj (dictSet fields "body" v))
     | none => .ok (.obj fields))
  | _ => .error .typeError

/-- client.py:101-111: the per-entry reassembly step.  The two branches of
the source (`code == 200 and body` / `elif body`) both re-parse the body;
a falsy or absent body leaves the entry untouched;  `.get` on a non-dict
entry raises `AttributeError`. -/
def processBatchEntry (entry : Json) : Except PyExn Json :=
  match entry with
  | .obj fields =>
    if isCode200 (dictGet fields "code") && truthyOpt (dictGet fields "body") then
      tryReparseBody fields
    else if truthyOpt (dictGet fields "body") then
      tryReparseBody fields
    else .ok entry
  | _ => .error .attributeError

/-- client.py:101-113: process the entries of one chunk response in order,
appending each to the accumulated result; a crash aborts the whole call. -/
def processEntries : List Json → Except PyExn (List Json)
  | [] => .ok []
  | e :: rest =>
    match processBatchEntry e with
    | .error exn => .error exn
    | .ok e2 =>
      match processEntries rest with
      | .error exn => .error exn
      | .ok rest2 => .ok (e2 :: rest2)

/-- client.py:85-113: the chunk loop.  `idxs` is the Python
`range(0, len(batch_requests), BATCH_LIMIT)`; the accumulator carries the
physical calls issued so far and `all_responses`. -/
def batchLoop (post : BatchPayload → List Json) (access_token : String)
    (batch_requests : List BatchItem) :
    List Nat → List BatchPayload × List Json →
    Except PyExn (List BatchPayload × List Json)
  | [], acc => .ok acc
  | i :: rest, acc =>
    let batch_chunk := (batch_requests.drop i).take BATCH_LIMIT
    let payload : BatchPayload := ⟨access_token, batch_chunk⟩
    match processEntries (post payload) with
    | .error exn => .error exn
    | .ok processed =>
      batchLoop post access_token batch_requests rest
        (acc.1 ++ [payload], acc.2 ++ processed)

/-- client.py:54-115: `make_graph_api_batch_call`.  The physical POST is
modelled by `post`, giving the parsed JSON array of sub-responses of a
successfully executed chunk call (the surrounding retry/classification
wrapper and transport-level failure are modelled by
`meta_request_handler`).  The result is instrumented with the list of
physical calls issued, in order. -/
def make_graph_api_batch_call (post : BatchPayload → List Json)
    (batch_requests : List BatchItem) (access_token : String) :
    Except PyExn (List BatchPayload × List Json) :=
  batchLoop post access_token batch_requests
    (pyRange 0 batch_requests.length BATCH_LIMIT) ([], [])

/-- The characters `urllib.parse.quote_plus` leaves unescaped: ASCII
letters, digits, and `_.-~`. -/
def isUrlSafe (c : Char) : Bool :=
  c.isAlpha || c.isDigit || c = '_' || c = '.' || c = '-' || c = '~'

/-- UTF-8 encoding of one character, as byte values. -/
def utf8Bytes (c : Char) : List Nat :=
  let n := c.toNat
  if n < 128 then [n]
  else if n < 2048 then [192 + n / 64, 128 + n % 64]
  else if n < 65536 then [224 + n / 4096, 128 + n / 64 % 64, 128 + n % 64]
  else [240 + n / 262144, 128 + n / 4096 % 64, 128 + n / 64 % 64, 128 + n % 64]

/-- Uppercase hexadecimal digit. -/
def hexDigitChar (n : Nat) : Char :=
  if n < 10 then Char.ofNat ('0'.toNat + n) else Char.ofNat ('A'.toNat + (n - 10))

/-- Percent-escape of one byte, as `%XX`. -/
def percentByte (b : Nat) : String :=
  String.mk ['%', hexDigitChar (b / 16), hexDigitChar (b % 16)]

/-- Models `urllib.parse.quote_plus`: safe characters kept, space becomes
`+`, everything else percent-escaped per UTF-8 byte. -/
def quote_plus (s : String) : String :=
  String.join (s.toList.map fun c =>
    if isUrlSafe c then String.mk [c]
    else if c = ' ' then "+"
    else String.join ((utf8Bytes c).map percentByte))

/-- Models `urllib.parse.urlencode` on string-valued parameters (its
`quote_via` defaults to `quote_plus`), in the dictionary's iteration
order. -/
def urlencode (params : List (String × String)) : String :=
  String.intercalate "&"
    (params.map fun kv => quote_plus kv.1 ++ "=" ++ quote_plus kv.2)

/-- client.py:10-30: `build_relative_url`.  Parameters are an association
list in the Python dict's iteration order. -/
def build_relative_url (object_id : String) (endpoint : String)
    (params : List (String × String)) : String :=
  let params_copy := params.filter fun kv => kv.1 != "access_token"
  let query_string := urlencode params_copy
  let relative_url := object_id ++ "/" ++ endpoint
  if !query_string.isEmpty then relative_url ++ "?" ++ query_string
  else relative_url

/-- The response mapping attached to a raised exception
(`RequestError.__init__` in errors.py stores it; the message-only
`MetaApiError` form carries none). -/
def failureBody : Failure → Option Json
  | .serverError body => some body
  | .tooManyRequestsError body => some body
  | .authenticationError body => some body
  | .notFoundError body => some body
  | .metaApiErrorBody body => some body
  | .metaApiErrorMsg _ => none

/-- Consecutive positional chunks of size at most `k` (used to state the
chunking properties of `make_graph_api_batch_call`). -/
def chunksOf (k : Nat) (l : List α) : List (List α) :=
  if _h : l.isEmpty || k == 0 then []
  else l.take k :: chunksOf k (l.drop k)
termination_by l.length
decreasing_by
  simp only [Bool.or_eq_true, List.isEmpty_iff, beq_iff_eq, not_or] at _h
  obtain ⟨hl, hk⟩ := _h
  rcases l with _ | ⟨a, as⟩
  · exact absurd rfl hl
  · simp only [List.length_drop, List.length_cons]
    omega

/-! ## Helper lemmas -/

theorem pyRange_pos (start stop step : Nat) (h1 : start < stop) (h2 : 0 < step) :
    pyRange start stop step = start :: pyRange (start + step) stop step := by
  rw [pyRange.eq_def]
  simp [h1, h2]

theorem pyRange_nil (start stop step : Nat) (h1 : stop ≤ start) :
    pyRange start stop step = [] := by
  rw [pyRange.eq_def]
  simp
  omega

theorem retryLoop_not_retryable (transport : Nat → HttpResult) (idx left : Nat)
    (e : PyExn) (ha : attemptOnce (transport idx) = .error e)
    (hr : isRetryable e = false) :
    retryLoop transport idx left = (.error e, 1) := by
  unfold retryLoop
  rw [ha]
  cases left with
  | zero => rfl
  | succ l => simp [hr]

theorem retryLoop_transient_then_ok (transport : Nat → HttpResult) (v : Json) :
    ∀ k idx left, k ≤ left →
    (∀ j, j < k → ∃ f, attemptOnce (transport (idx + j)) = .error (.failure f) ∧
      isRetryable (.failure f) = true) →
    attemptOnce (transport (idx + k)) = .ok v →
    retryLoop transport idx left = (.ok v, k + 1) := by
  intro k
  induction k with
  | zero =>
    intro idx left _ _ hok
    rw [Nat.add_zero] at hok
    unfold retryLoop
    rw [hok]
  | succ k ih =>
    intro idx left hk hfail hok
    obtain ⟨f0, hf0, hr0⟩ := hfail 0 (Nat.succ_pos k)
    rw [Nat.add_zero] at hf0
    unfold retryLoop
    rw [hf0]
    cases left with
    | zero => omega
    | succ l =>
      simp only [hr0, if_true]
      have hrec := ih (idx + 1) l (by omega)
        (fun j hj => by
          have hj2 := hfail (j + 1) (by omega)
          rwa [show idx + (j + 1) = idx + 1 + j by omega] at hj2)
        (by rwa [show idx + (k + 1) = idx + 1 + k by omega] at hok)
      rw [hrec]

theorem retryLoop_all_transient (transport : Nat → HttpResult) (fs : Nat → Failure) :
    ∀ left idx,
    (∀ j, j ≤ left →
      attemptOnce (transport (idx + j)) = .error (.failure (fs (idx + j))) ∧
      isRetryable (.failure (fs (idx + j))) = true) →
    retryLoop transport idx left = (.error (.failure (fs (idx + left))), left + 1) := by
  intro left
  induction left with
  | zero =>
    intro idx hfail
    obtain ⟨hf, _⟩ := hfail 0 (Nat.le_refl 0)
    rw [Nat.add_zero] at hf
    unfold retryLoop
    rw [hf]
    rfl
  | succ l ih =>
    intro idx hfail
    obtain ⟨hf, hr⟩ := hfail 0 (Nat.zero_le _)
    rw [Nat.add_zero] at hf hr
    unfold retryLoop
    rw [hf]
    simp only [hr, if_true]
    have hrec := ih (idx + 1) (fun j hj => by
      have hj2 := hfail (j + 1) (by omega)
      rwa [show idx + (j + 1) = idx + 1 + j by omega] at hj2)
    rw [hrec, show idx + 1 + l = idx + (l + 1) by omega]

theorem mappingGet_not_mem (n : Int)
    (hn : n ∉ ([4, 17, 190, 102, 104, 803] : List Int)) :
    mappingGet (some (.num n)) = .metaApiError := by
  simp only [List.mem_cons, List.not_mem_nil, or_false] at hn
  push_neg at hn
  obtain ⟨h4, h17, h190, h102, h104, h803⟩ := hn
  have e4 : (n == (4 : Int)) = false := beq_eq_false_iff_ne.mpr h4
  have e17 : (n == (17 : Int)) = false := beq_eq_false_iff_ne.mpr h17
  have e190 : (n == (190 : Int)) = false := beq_eq_false_iff_ne.mpr h190
  have e102 : (n == (102 : Int)) = false := beq_eq_false_iff_ne.mpr h102
  have e104 : (n == (104 : Int)) = false := beq_eq_false_iff_ne.mpr h104
  have e803 : (n == (803 : Int)) = false := beq_eq_false_iff_ne.mpr h803
  simp [mappingGet, EXCEPTION_MAPPING, List.lookup, e4, e17, e190, e102, e104, e803]

/-! ## C1: error classification -/

/-- C1: for an error body whose numeric `error.code` is a key of
`EXCEPTION_MAPPING`, `handle_error_response` raises exactly the mapped
variant (4 and 17 → `TooManyRequestsError` i.e. RateLimited; 190, 102, 104
→ `AuthenticationError`; 803 → `NotFoundError`); for a code absent from the
table — including a missing `code` key — it raises `MetaApiError`
(GenericApiError). -/
theorem c1_error_classification (fields errorInfo : List (String × Json))
    (h : dictGet fields "error" = some (.obj errorInfo)) :
    (dictGet errorInfo "code" = some (.num 4) →
      handle_error_response fields =
        .raised (.tooManyRequestsError (detailedError errorInfo (some (.num 4))))) ∧
    (dictGet errorInfo "code" = some (.num 17) →
      handle_error_response fields =
        .raised (.tooManyRequestsError (detailedError errorInfo (some (.num 17))))) ∧
    (dictGet errorInfo "code" = some (.num 190) →
      handle_error_response fields =
        .raised (.authenticationError (detailedError errorInfo (some (.num 190))))) ∧
    (dictGet errorInfo "code" = some (.num 102) →
      handle_error_response fields =
        .raised (.authenticationError (detailedError errorInfo (some (.num 102))))) ∧
    (dictGet errorInfo "code" = some (.num 104) →
      handle_error_response fields =
        .raised (.authenticationError (detailedError errorInfo (some (.num 104))))) ∧
    (dictGet errorInfo "code" = some (.num 803) →
      handle_error_response fields =
        .raised (.notFoundError (detailedError errorInfo (some (.num 803))))) ∧
    (∀ n : Int, dictGet errorInfo "code" = some (.num n) →
      n ∉ ([4, 17, 190, 102, 104, 803] : List Int) →
      handle_error_response fields =
        .raised (.metaApiErrorBody (detailedError errorInfo (some (.num n))))) ∧
    (dictGet errorInfo "code" = none →
      handle_error_response fields =
        .raised (.metaApiErrorBody (detailedError errorInfo none))) := by
  refine ⟨?_, ?_, ?_, ?_, ?_, ?_, ?_, ?_⟩
  · intro hc
    simp only [handle_error_response, h, hc]
    rfl
  · intro hc
    simp only [handle_error_response, h, hc]
    rfl
  · intro hc
    simp only [handle_error_response, h, hc]
    rfl
  · intro hc
    simp only [handle_error_response, h, hc]
    rfl
  · intro hc
    simp only [handle_error_response, h, hc]
    rfl
  · intro hc
    simp only [handle_error_response, h, hc]
    rfl
  · intro n hc hn
    simp only [handle_error_response, h, hc, mappingGet_not_mem n hn]
    rfl
  · intro hc
    simp only [handle_error_response, h, hc]
    rfl

/-- C1 witness: a code in the table (17 → `TooManyRequestsError`) and an
error body with no `code` key (→ `MetaApiError`), evaluated concretely. -/
theorem c1_error_classification_witness :
    handle_error_response
        [("error", Json.obj [("code", Json.num 17), ("message", Json.str "m")])] =
      .raised (.tooManyRequestsError
        (Json.obj [("error", Json.obj [("message", Json.str "m"), ("code", Json.num 17)])])) ∧
    handle_error_response [("error", Json.obj [("message", Json.str "m")])] =
      .raised (.metaApiErrorBody
        (Json.obj [("error", Json.obj [("message", Json.str "m"), ("code", Json.null)])])) := by
  have h1 := c1_error_classification
    [("error", Json.obj [("code", Json.num 17), ("message", Json.str "m")])]
    [("code", Json.num 17), ("message", Json.str "m")] rfl
  have h2 := c1_error_classification
    [("error", Json.obj [("message", Json.str "m")])]
    [("message", Json.str "m")] rfl
  exact ⟨h1.2.1 rfl, h2.2.2.2.2.2.2.2 rfl⟩

/-! ## C2: non-2xx JSON body without an `error` key -/

/-- C2 counterexample: a non-2xx response whose body parses as JSON but has
no `error` key is NOT treated as successful — utils.py:59 raises
`MetaApiError(f"HTTP error occurred: {str(e)}")` after
`handle_error_response` returns, with a single transport invocation. -/
theorem c2_no_error_key_counterexample :
    meta_request_handler 3
        (fun _ => .statusError "client error" (some [("status", Json.num 500)])) =
      (.error (.failure (.metaApiErrorMsg "HTTP error occurred: client error")), 1) ∧
    ∀ v, (meta_request_handler 3
        (fun _ => .statusError "client error" (some [("status", Json.num 500)]))).1 ≠
      Except.ok v := by
  refine ⟨rfl, ?_⟩
  intro v h
  have h2 : Except.error (PyExn.failure (Failure.metaApiErrorMsg "HTTP error occurred: client error")) = Except.ok v := h
  exact Except.noConfusion h2

/-- C2 amended: for every non-2xx response whose body parses as a JSON
object without an `error` key, `get`/`post` raise a `MetaApiError`
(GenericApiError) whose message notes the HTTP error, after exactly one
transport invocation (it is not retried). -/
theorem c2_no_error_key_raises (maxRetries : Nat) (transport : Nat → HttpResult)
    (detail : String) (fields : List (String × Json))
    (h0 : transport 0 = .statusError detail (some fields))
    (hne : dictGet fields "error" = none) :
    meta_request_handler maxRetries transport =
      (.error (.failure (.metaApiErrorMsg ("HTTP error occurred: " ++ detail))), 1) := by
  have ha : attemptOnce (transport 0) =
      .error (.failure (.metaApiErrorMsg ("HTTP error occurred: " ++ detail))) := by
    rw [h0]
    simp [attemptOnce, handle_error_response, hne]
  exact retryLoop_not_retryable transport 0 (maxRetries - 1) _ ha rfl

/-- C2 witness for the amended claim, at a concrete body `{"status": 500}`
and 3 configured attempts. -/
theorem c2_no_error_key_raises_witness :
    meta_request_handler 3
        (fun _ => .statusError "server error" (some [("status", Json.num 500)])) =
      (.error (.failure (.metaApiErrorMsg "HTTP error occurred: server error")), 1) :=
  c2_no_error_key_raises 3 _ "server error" [("status", Json.num 500)] rfl rfl

/-! ## C3: retry boundary -/

/-- C3: with `maxRetries = N ≥ 1` attempts, a transport giving `N - 1`
responses whose classification is retryable (`ServerError` or
`TooManyRequestsError`, per the tenacity predicate `isRetryable`) followed
by a success makes `get`/`post` return that success after exactly `N`
transport invocations; a transport giving `N` consecutive such transient
failures makes them raise the `N`-th classified failure unchanged, after
exactly `N` transport invocations. -/
theorem c3_retry_boundary (N : Nat) (hN : 1 ≤ N) (tS tF : Nat → HttpResult)
    (v : Json) (fs : Nat → Failure)
    (hS : ∀ i, i + 1 < N → ∃ f, attemptOnce (tS i) = .error (.failure f) ∧
      isRetryable (.failure f) = true)
    (hSok : attemptOnce (tS (N - 1)) = .ok v)
    (hF : ∀ i, i < N → attemptOnce (tF i) = .error (.failure (fs i)) ∧
      isRetryable (.failure (fs i)) = true) :
    meta_request_handler N tS = (.ok v, N) ∧
    meta_request_handler N tF = (.error (.failure (fs (N - 1))), N) := by
  constructor
  · have h := retryLoop_transient_then_ok tS v (N - 1) 0 (N - 1) (Nat.le_refl _)
      (fun j hj => by simpa using hS j (by omega))
      (by simpa using hSok)
    rw [meta_request_handler, h, Nat.sub_add_cancel hN]
  · have h := retryLoop_all_transient tF fs (N - 1) 0
      (fun j hj => by simpa using hF j (by omega))
    rw [meta_request_handler, h]
    simp [Nat.sub_add_cancel hN]

/-- C3 witness: `N = 3`, a transport with two rate-limited responses (code
17) then a success, and a transport with three rate-limited responses. -/
theorem c3_retry_boundary_witness :
    meta_request_handler 3
        (fun i => if i < 2
          then .statusError "e" (some [("error", Json.obj [("code", Json.num 17)])])
          else .success (Json.num 7)) =
      (.ok (Json.num 7), 3) ∧
    meta_request_handler 3
        (fun _ => .statusError "e" (some [("error", Json.obj [("code", Json.num 17)])])) =
      (.error (.failure (.tooManyRequestsError
        (Json.obj [("error", Json.obj [("message", Json.str "Unknown error"),
          ("code", Json.num 17)])]))), 3) := by
  have h := c3_retry_boundary 3 (by omega)
    (fun i => if i < 2
      then .statusError "e" (some [("error", Json.obj [("code", Json.num 17)])])
      else .success (Json.num 7))
    (fun _ => .statusError "e" (some [("error", Json.obj [("code", Json.num 17)])]))
    (Json.num 7)
    (fun _ => .tooManyRequestsError
      (Json.obj [("error", Json.obj [("message", Json.str "Unknown error"),
        ("code", Json.num 17)])]))
    (fun i hi => by
      have hi2 : i < 2 := by omega
      interval_cases i
      · exact ⟨_, rfl, rfl⟩
      · exact ⟨_, rfl, rfl⟩)
    rfl
    (fun i _ => ⟨rfl, rfl⟩)
  exact h

/-! ## C4: non-retryable failures -/

/-- C4: a first response classified `AuthenticationError` or
`NotFoundError` makes `get`/`post` fail immediately with exactly one
transport invocation, for any configured attempt bound; a first non-2xx
response whose body is not valid JSON likewise fails after one invocation,
with a `MetaApiError` (GenericApiError) whose message mentions the
non-JSON condition. -/
theorem c4_no_retry (maxRetries : Nat) (transport : Nat → HttpResult)
    (detail : String) :
    (∀ b, attemptOnce (transport 0) = .error (.failure (.authenticationError b)) →
      meta_request_handler maxRetries transport =
        (.error (.failure (.authenticationError b)), 1)) ∧
    (∀ b, attemptOnce (transport 0) = .error (.failure (.notFoundError b)) →
      meta_request_handler maxRetries transport =
        (.error (.failure (.notFoundError b)), 1)) ∧
    (transport 0 = .statusError detail none →
      ∃ m, meta_request_handler maxRetries transport =
          (.error (.failure (.metaApiErrorMsg m)), 1) ∧
        m = "HTTP error occurred: " ++ detail ++ " with non-JSON response" ∧
        ∃ pre, m = pre ++ "non-JSON response") := by
  refine ⟨?_, ?_, ?_⟩
  · intro b hb
    exact retryLoop_not_retryable transport 0 (maxRetries - 1) _ hb rfl
  · intro b hb
    exact retryLoop_not_retryable transport 0 (maxRetries - 1) _ hb rfl
  · intro h0
    refine ⟨"HTTP error occurred: " ++ detail ++ " with non-JSON response",
      ?_, rfl, "HTTP error occurred: " ++ detail ++ " with ", ?_⟩
    · have ha : attemptOnce (transport 0) =
          .error (.failure (.metaApiErrorMsg
            ("HTTP error occurred: " ++ detail ++ " with non-JSON response"))) := by
        rw [h0]
        rfl
      exact retryLoop_not_retryable transport 0 (maxRetries - 1) _ ha rfl
    · rw [String.append_assoc ("HTTP error occurred: " ++ detail) " with " "non-JSON response"]
      congr 1

/-- C4 witness: authentication (code 190), not-found (code 803) and
non-JSON first responses, each with 3 configured attempts and exactly one
invocation. -/
theorem c4_no_retry_witness :
    meta_request_handler 3
        (fun _ => .statusError "e" (some [("error", Json.obj [("code", Json.num 190)])])) =
      (.error (.failure (.authenticationError
        (Json.obj [("error", Json.obj [("message", Json.str "Unknown error"),
          ("code", Json.num 190)])]))), 1) ∧
    meta_request_handler 3
        (fun _ => .statusError "e" (some [("error", Json.obj [("code", Json.num 803)])])) =
      (.error (.failure (.notFoundError
        (Json.obj [("error", Json.obj [("message", Json.str "Unknown error"),
          ("code", Json.num 803)])]))), 1) ∧
    ∃ m, meta_request_handler 3 (fun _ => .statusError "err" none) =
        (.error (.failure (.metaApiErrorMsg m)), 1) ∧
      m = "HTTP error occurred: err with non-JSON response" ∧
      ∃ pre, m = pre ++ "non-JSON response" := by
  refine ⟨?_, ?_, ?_⟩
  · exact (c4_no_retry 3
      (fun _ => .statusError "e" (some [("error", Json.obj [("code", Json.num 190)])]))
      "e").1 _ rfl
  · exact (c4_no_retry 3
      (fun _ => .statusError "e" (some [("error", Json.obj [("code", Json.num 803)])]))
      "e").2.1 _ rfl
  · exact (c4_no_retry 3 (fun _ => .statusError "err" none) "err").2.2 rfl

/-! ## C5: attached error body -/

theorem failureBody_raise (cls : ExcClass) (b : Json) :
    failureBody (cls.raise b) = some b := by
  cases cls <;> rfl

/-- C5: a classified failure raised from an error response carries an
attached body: a mapping whose `error` object contains the upstream
`message` and numeric `code`, and each of `error_subcode`,
`error_user_title`, `error_user_msg`, `fbtrace_id` exactly when present
upstream (with the upstream value). -/
theorem c5_attached_body (fields errorInfo : List (String × Json))
    (m : Json) (c : Int)
    (he : dictGet fields "error" = some (.obj errorInfo))
    (hm : dictGet errorInfo "message" = some m)
    (hc : dictGet errorInfo "code" = some (.num c)) :
    ∃ f inner, handle_error_response fields = .raised f ∧
      failureBody f = some (.obj [("error", .obj inner)]) ∧
      dictGet inner "message" = some m ∧
      dictGet inner "code" = some (.num c) ∧
      dictGet inner "error_subcode" = dictGet errorInfo "error_subcode" ∧
      dictGet inner "error_user_title" = dictGet errorInfo "error_user_title" ∧
      dictGet inner "error_user_msg" = dictGet errorInfo "error_user_msg" ∧
      dictGet inner "fbtrace_id" = dictGet errorInfo "fbtrace_id" := by
  refine ⟨(mappingGet (some (.num c))).raise (detailedError errorInfo (some (.num c))),
    detailedErrorFields errorInfo (some (.num c)), ?_, ?_, ?_, ?_, ?_, ?_, ?_, ?_⟩
  · simp only [handle_error_response, he, hc]
  · rw [failureBody_raise]
    rfl
  all_goals
    simp only [detailedErrorFields, hm]
    rcases h1 : dictGet errorInfo "error_subcode" with _ | v1 <;>
    rcases h2 : dictGet errorInfo "error_user_title" with _ | v2 <;>
    rcases h3 : dictGet errorInfo "error_user_msg" with _ | v3 <;>
    rcases h4 : dictGet errorInfo "fbtrace_id" with _ | v4 <;>
    simp [dictGet]

/-- C5 witness: an error body with `message`, `code` 190, `error_subcode`
and `fbtrace_id` but no `error_user_title`/`error_user_msg`. -/
theorem c5_attached_body_witness :
    ∃ f inner,
      handle_error_response
        [("error", Json.obj [("message", Json.str "bad token"),
          ("code", Json.num 190), ("error_subcode", Json.num 460),
          ("fbtrace_id", Json.str "tr")])] = .raised f ∧
      failureBody f = some (.obj [("error", .obj inner)]) ∧
      dictGet inner "message" = some (Json.str "bad token") ∧
      dictGet inner "code" = some (Json.num 190) ∧
      dictGet inner "error_subcode" = some (Json.num 460) ∧
      dictGet inner "error_user_title" = none ∧
      dictGet inner "error_user_msg" = none ∧
      dictGet inner "fbtrace_id" = some (Json.str "tr") := by
  have h := c5_attached_body
    [("error", Json.obj [("message", Json.str "bad token"),
      ("code", Json.num 190), ("error_subcode", Json.num 460),
      ("fbtrace_id", Json.str "tr")])]
    [("message", Json.str "bad token"), ("code", Json.num 190),
      ("error_subcode", Json.num 460), ("fbtrace_id", Json.str "tr")]
    (Json.str "bad token") 190 rfl rfl rfl
  exact h

/-! ## Batch helper lemmas -/

theorem chunksOf_nil (k : Nat) : chunksOf k ([] : List α) = [] := by
  rw [chunksOf.eq_def]
  simp

theorem chunksOf_cons (k : Nat) (l : List α) (hl : l ≠ []) (hk : k ≠ 0) :
    chunksOf k l = l.take k :: chunksOf k (l.drop k) := by
  rw [chunksOf.eq_def]
  have h1 : (l.isEmpty || k == 0) = false := by
    rcases l with _ | ⟨a, as⟩
    · exact absurd rfl hl
    · simp only [List.isEmpty_cons, Bool.false_or]
      exact beq_eq_false_iff_ne.mpr hk
  simp [h1]

theorem chunksOf_50_length : ∀ (d : Nat) (l : List α), l.length ≤ d →
    (chunksOf 50 l).length = (l.length + 49) / 50 := by
  intro d
  induction d with
  | zero =>
    intro l hd
    have h0 : l = [] := List.eq_nil_of_length_eq_zero (by omega)
    subst h0
    simp [chunksOf_nil]
  | succ d ih =>
    intro l hd
    rcases eq_or_ne l [] with rfl | hl
    · simp [chunksOf_nil]
    · have hpos : 0 < l.length := List.length_pos.mpr hl
      rw [chunksOf_cons 50 l hl (by omega), List.length_cons,
        ih (l.drop 50) (by simp only [List.length_drop]; omega), List.length_drop]
      omega

theorem chunksOf_flatten (k : Nat) (hk : k ≠ 0) :
    ∀ (d : Nat) (l : List α), l.length ≤ d → (chunksOf k l).flatten = l := by
  intro d
  induction d with
  | zero =>
    intro l hd
    have h0 : l = [] := List.eq_nil_of_length_eq_zero (by omega)
    subst h0
    simp [chunksOf_nil]
  | succ d ih =>
    intro l hd
    rcases eq_or_ne l [] with rfl | hl
    · simp [chunksOf_nil]
    · have hpos : 0 < l.length := List.length_pos.mpr hl
      rw [chunksOf_cons k l hl hk, List.flatten_cons,
        ih (l.drop k) (by simp only [List.length_drop]; omega),
        List.take_append_drop]

theorem chunksOf_mem_le (k : Nat) : ∀ (d : Nat) (l : List α), l.length ≤ d →
    ∀ c ∈ chunksOf k l, c.length ≤ k := by
  intro d
  induction d with
  | zero =>
    intro l hd c hc
    have h0 : l = [] := List.eq_nil_of_length_eq_zero (by omega)
    subst h0
    rw [chunksOf_nil] at hc
    simp at hc
  | succ d ih =>
    intro l hd c hc
    rcases eq_or_ne l [] with rfl | hl
    · rw [chunksOf_nil] at hc
      simp at hc
    · by_cases hk : k = 0
      · subst hk
        rw [chunksOf.eq_def] at hc
        simp at hc
      · have hpos : 0 < l.length := List.length_pos.mpr hl
        rw [chunksOf_cons k l hl hk] at hc
        rcases List.mem_cons.mp hc with rfl | hc2
        · exact List.length_take_le k l
        · exact ih (l.drop k) (by simp only [List.length_drop]; omega) c hc2

theorem processEntries_map (resp out : BatchItem → Json)
    (hout : ∀ item, processBatchEntry (resp item) = .ok (out item)) :
    ∀ l : List BatchItem, processEntries (l.map resp) = .ok (l.map out) := by
  intro l
  induction l with
  | nil => rfl
  | cons a as ih =>
    simp only [List.map_cons, processEntries, hout a, ih]

theorem batchLoop_spec (post : BatchPayload → List Json) (tok : String)
    (reqs : List BatchItem) (resp out : BatchItem → Json)
    (hpost : ∀ p, post p = p.batch.map resp)
    (hout : ∀ item, processBatchEntry (resp item) = .ok (out item)) :
    ∀ (d s : Nat) (accCalls : List BatchPayload) (accRes : List Json),
      reqs.length - s ≤ d →
      batchLoop post tok reqs (pyRange s reqs.length BATCH_LIMIT) (accCalls, accRes) =
        .ok (accCalls ++ (chunksOf BATCH_LIMIT (reqs.drop s)).map (fun c => ⟨tok, c⟩),
             accRes ++ (reqs.drop s).map out) := by
  intro d
  induction d with
  | zero =>
    intro s accCalls accRes hd
    have hs : reqs.length ≤ s := by omega
    rw [pyRange_nil _ _ _ hs, List.drop_eq_nil_of_le hs]
    simp [batchLoop, chunksOf_nil]
  | succ d ih =>
    intro s accCalls accRes hd
    by_cases hs : s < reqs.length
    · rw [pyRange_pos _ _ _ hs (by norm_num [BATCH_LIMIT])]
      simp only [batchLoop, hpost, processEntries_map resp out hout]
      rw [ih (s + BATCH_LIMIT) _ _ (by simp only [BATCH_LIMIT] at hd ⊢; omega)]
      have hdd : (reqs.drop s).drop BATCH_LIMIT = reqs.drop (s + BATCH_LIMIT) := by
        rw [List.drop_drop]
      have hcons : chunksOf BATCH_LIMIT (reqs.drop s) =
          (reqs.drop s).take BATCH_LIMIT ::
            chunksOf BATCH_LIMIT (reqs.drop (s + BATCH_LIMIT)) := by
        rw [← hdd]
        exact chunksOf_cons BATCH_LIMIT (reqs.drop s)
          (by
            intro hnil
            have := List.drop_eq_nil_iff.mp hnil
            omega)
          (by norm_num [BATCH_LIMIT])
      have hmap : (reqs.drop s).map out =
          ((reqs.drop s).take BATCH_LIMIT).map out ++
            (reqs.drop (s + BATCH_LIMIT)).map out := by
        rw [← hdd, ← List.map_append, List.take_append_drop]
      rw [hcons, hmap]
      simp [List.append_assoc]
    · rw [pyRange_nil _ _ _ (by omega), List.drop_eq_nil_of_le (by omega)]
      simp [batchLoop, chunksOf_nil]

/-! ## C6: batch chunking and order preservation -/

/-- C6: for more than 50 batch items, where each physical POST of a chunk
returns one sub-response per item in order (`post p = p.batch.map resp`)
and every sub-response reassembles without a crash
(`processBatchEntry (resp item) = .ok (out item)`),
`make_graph_api_batch_call` issues exactly `⌈n/50⌉` physical calls whose
payloads partition the items into consecutive positional chunks of at most
50, and returns a list of length `n` whose j-th element is the
(reassembled) response to the j-th input item. -/
theorem c6_batch_chunking (post : BatchPayload → List Json) (tok : String)
    (reqs : List BatchItem) (resp out : BatchItem → Json)
    (hn : 50 < reqs.length)
    (hpost : ∀ p, post p = p.batch.map resp)
    (hout : ∀ item, processBatchEntry (resp item) = .ok (out item)) :
    ∃ calls results,
      make_graph_api_batch_call post reqs tok = .ok (calls, results) ∧
      calls.length = (reqs.length + 49) / 50 ∧
      (calls.map BatchPayload.batch).flatten = reqs ∧
      (∀ p ∈ calls, p.batch.length ≤ 50) ∧
      results.length = reqs.length ∧
      ∀ j (h1 : j < results.length) (h2 : j < reqs.length),
        results[j] = out reqs[j] := by
  have hb := batchLoop_spec post tok reqs resp out hpost hout reqs.length 0 [] []
    (by omega)
  rw [List.drop_zero] at hb
  simp only [List.nil_append] at hb
  refine ⟨(chunksOf BATCH_LIMIT reqs).map (fun c => ⟨tok, c⟩), reqs.map out,
    hb, ?_, ?_, ?_, ?_, ?_⟩
  · rw [List.length_map]
    exact chunksOf_50_length reqs.length reqs (Nat.le_refl _)
  · rw [List.map_map]
    have hcomp : (BatchPayload.batch ∘ fun c => (⟨tok, c⟩ : BatchPayload)) = id := rfl
    rw [hcomp, List.map_id]
    exact chunksOf_flatten BATCH_LIMIT (by norm_num [BATCH_LIMIT])
      reqs.length reqs (Nat.le_refl _)
  · intro p hp
    rw [List.mem_map] at hp
    obtain ⟨c, hc, rfl⟩ := hp
    exact chunksOf_mem_le BATCH_LIMIT reqs.length reqs (Nat.le_refl _) c hc
  · rw [List.length_map]
  · intro j h1 h2
    simp [List.getElem_map]

/-- C6 witness: 51 identical items, a per-item transport returning a `200`
entry with a string body; two physical calls and 51 in-order results. -/
theorem c6_batch_chunking_witness :
    ∃ calls results,
      make_graph_api_batch_call
          (fun p => p.batch.map (fun _ =>
            Json.obj [("code", Json.num 200), ("body", Json.str "1")]))
          (List.replicate 51 ⟨"GET", "1/insights"⟩) "tok" = .ok (calls, results) ∧
      calls.length = ((List.replicate 51 (BatchItem.mk "GET" "1/insights")).length + 49) / 50 ∧
      (calls.map BatchPayload.batch).flatten =
        List.replicate 51 ⟨"GET", "1/insights"⟩ ∧
      (∀ p ∈ calls, p.batch.length ≤ 50) ∧
      results.length = (List.replicate 51 (BatchItem.mk "GET" "1/insights")).length ∧
      ∀ j (h1 : j < results.length)
        (h2 : j < (List.replicate 51 (BatchItem.mk "GET" "1/insights")).length),
        results[j] =
          (fun _ : BatchItem => Json.obj [("code", Json.num 200), ("body", Json.num 1)])
            (List.replicate 51 (BatchItem.mk "GET" "1/insights"))[j] :=
  c6_batch_chunking
    (fun p => p.batch.map (fun _ =>
      Json.obj [("code", Json.num 200), ("body", Json.str "1")]))
    "tok" (List.replicate 51 ⟨"GET", "1/insights"⟩)
    (fun _ => Json.obj [("code", Json.num 200), ("body", Json.str "1")])
    (fun _ => Json.obj [("code", Json.num 200), ("body", Json.num 1)])
    (by simp) (fun p => rfl) (fun item => rfl)

/-! ## C10: empty batch -/

/-- C10: on the empty input list, `make_graph_api_batch_call` issues zero
physical calls and returns the empty list. -/
theorem c10_empty_batch (post : BatchPayload → List Json) (tok : String) :
    make_graph_api_batch_call post [] tok = .ok ([], []) := by
  unfold make_graph_api_batch_call
  rw [pyRange_nil _ _ _ (by simp)]
  rfl

/-! ## C7: best-effort body re-parse -/

theorem tryReparseBody_str (fields : List (String × Json)) (s : String)
    (hb : dictGet fields "body" = some (.str s)) :
    ∃ r, tryReparseBody fields = .ok r := by
  unfold tryReparseBody
  rw [hb]
  rcases hp : parseJson s with _ | v <;> simp [hp]

/-- C7: batch reassembly re-parses string bodies best-effort: the string
body `"{"a":1}"` becomes the structured mapping, the string body
`"not json"` is left as the raw string, and an entry with a string body
never raises (the parse failure is swallowed). -/
theorem c7_body_reparse :
    processBatchEntry (.obj [("code", Json.num 200), ("headers", Json.arr []),
        ("body", Json.str "\x7b\"a\":1\x7d")]) =
      .ok (.obj [("code", Json.num 200), ("headers", Json.arr []),
        ("body", Json.obj [("a", Json.num 1)])]) ∧
    processBatchEntry (.obj [("code", Json.num 200), ("headers", Json.arr []),
        ("body", Json.str "not json")]) =
      .ok (.obj [("code", Json.num 200), ("headers", Json.arr []),
        ("body", Json.str "not json")]) ∧
    ∀ (fields : List (String × Json)) (s : String),
      dictGet fields "body" = some (.str s) →
      ∃ r, processBatchEntry (.obj fields) = .ok r := by
  refine ⟨rfl, rfl, ?_⟩
  intro fields s hb
  have hred : processBatchEntry (.obj fields) =
      if (isCode200 (dictGet fields "code") && truthyOpt (dictGet fields "body")) = true
      then tryReparseBody fields
      else if truthyOpt (dictGet fields "body") = true then tryReparseBody fields
      else .ok (.obj fields) := rfl
  rw [hred]
  by_cases h2 : (isCode200 (dictGet fields "code") &&
      truthyOpt (dictGet fields "body")) = true
  · rw [if_pos h2]
    exact tryReparseBody_str fields s hb
  · rw [if_neg h2]
    by_cases h3 : truthyOpt (dictGet fields "body") = true
    · rw [if_pos h3]
      exact tryReparseBody_str fields s hb
    · rw [if_neg h3]
      exact ⟨_, rfl⟩

/-- C7 witness for the general no-crash conjunct, at an entry whose string
body is empty (falsy, so not re-parsed). -/
theorem c7_body_reparse_witness :
    ∃ r, processBatchEntry (.obj [("code", Json.num 500), ("body", Json.str "x")]) =
      .ok r :=
  c7_body_reparse.2.2 [("code", Json.num 500), ("body", Json.str "x")] "x" rfl

/-! ## C8: relative URL construction -/

/-- C8: `build_relative_url` on the documented example returns
`"123/insights?fields=impressions%2Cclicks"`; for every input the
`access_token` parameter is excluded from the constructed path, and the
remaining parameters are URL-encoded in the input's iteration order (the
second concrete case shows the order is the input's, not sorted). -/
theorem c8_build_relative_url :
    build_relative_url "123" "insights"
        [("access_token", "X"), ("fields", "impressions,clicks")] =
      "123/insights?fields=impressions%2Cclicks" ∧
    build_relative_url "7" "e" [("b", "2"), ("a", "1")] = "7/e?b=2&a=1" ∧
    ∀ (object_id endpoint : String) (params : List (String × String)),
      build_relative_url object_id endpoint params =
        build_relative_url object_id endpoint
          (params.filter fun kv => kv.1 != "access_token") := by
  refine ⟨rfl, rfl, ?_⟩
  intro object_id endpoint params
  simp only [build_relative_url, List.filter_filter, Bool.and_self]

/-! ## C9: per-item failure isolation -/

theorem dictGet_dictSet_self (fields : List (String × Json)) (k : String)
    (v : Json) : dictGet (dictSet fields k v) k = some v := by
  induction fields with
  | nil => simp [dictSet, dictGet]
  | cons p rest ih =>
    obtain ⟨k2, v2⟩ := p
    by_cases h : k2 = k
    · subst h
      simp [dictSet, dictGet]
    · simp [dictSet, dictGet, h, ih]

theorem dictGet_dictSet_ne (fields : List (String × Json)) (k k2 : String)
    (v : Json) (hne : k2 ≠ k) :
    dictGet (dictSet fields k v) k2 = dictGet fields k2 := by
  have hkk2 : ¬ k = k2 := fun h => hne h.symm
  induction fields with
  | nil => simp [dictSet, dictGet, hkk2]
  | cons p rest ih =>
    obtain ⟨k3, v3⟩ := p
    by_cases h : k3 = k
    · subst h
      simp [dictSet, dictGet, hkk2]
    · simp [dictSet, dictGet, h, ih]

theorem tryReparseBody_ok_shape (fields : List (String × Json)) (r : Json)
    (h : tryReparseBody fields = .ok r) :
    r = .obj fields ∨
      ∃ s v, dictGet fields "body" = some (.str s) ∧ parseJson s = some v ∧
        r = .obj (dictSet fields "body" v) := by
  unfold tryReparseBody at h
  split at h
  · rename_i s heq
    split at h
    · rename_i v heq2
      right
      cases h
      exact ⟨s, v, heq, heq2, rfl⟩
    · left
      cases h
      rfl
  · cases h

theorem processBatchEntry_ok_shape (fields : List (String × Json)) (r : Json)
    (h : processBatchEntry (.obj fields) = .ok r) :
    r = .obj fields ∨
      ∃ s v, dictGet fields "body" = some (.str s) ∧ parseJson s = some v ∧
        r = .obj (dictSet fields "body" v) := by
  have hred : processBatchEntry (.obj fields) =
      if (isCode200 (dictGet fields "code") && truthyOpt (dictGet fields "body")) = true
      then tryReparseBody fields
      else if truthyOpt (dictGet fields "body") = true then tryReparseBody fields
      else .ok (.obj fields) := rfl
  rw [hred] at h
  split at h
  · exact tryReparseBody_ok_shape fields r h
  · split at h
    · exact tryReparseBody_ok_shape fields r h
    · left
      cases h
      rfl

/-- C9: with a chunk transport and per-item reassembly as in the chunking
claim, every sub-response — in particular one with a code other than 200 —
appears in the output as an ordinary (non-exceptional) entry at its item's
position, keeping its own `code` and its own (possibly re-parsed) `body`,
and every other position likewise carries exactly its own item's
reassembled response, unaffected. -/
theorem c9_per_item_isolation (post : BatchPayload → List Json) (tok : String)
    (reqs : List BatchItem) (resp out : BatchItem → Json)
    (hpost : ∀ p, post p = p.batch.map resp)
    (hout : ∀ item, processBatchEntry (resp item) = .ok (out item))
    (j : Nat) (hj : j < reqs.length)
    (fieldsj : List (String × Json)) (c : Int)
    (hfj : resp reqs[j] = .obj fieldsj)
    (hcode : dictGet fieldsj "code" = some (.num c))
    (_hc : c ≠ 200) :
    ∃ calls results fieldsOut,
      make_graph_api_batch_call post reqs tok = .ok (calls, results) ∧
      results.length = reqs.length ∧
      (∀ i (h1 : i < results.length) (h2 : i < reqs.length),
        results[i] = out reqs[i]) ∧
      out reqs[j] = .obj fieldsOut ∧
      dictGet fieldsOut "code" = some (.num c) ∧
      (dictGet fieldsOut "body" = dictGet fieldsj "body" ∨
        ∃ s v, dictGet fieldsj "body" = some (.str s) ∧ parseJson s = some v ∧
          dictGet fieldsOut "body" = some v) := by
  have hb := batchLoop_spec post tok reqs resp out hpost hout reqs.length 0 [] []
    (by omega)
  rw [List.drop_zero] at hb
  simp only [List.nil_append] at hb
  have hshape := processBatchEntry_ok_shape fieldsj (out reqs[j])
    (by rw [← hfj]; exact hout _)
  rcases hshape with h1 | ⟨s, v, hbod, hparse, h1⟩
  · refine ⟨_, _, fieldsj, hb, by simp, ?_, h1, hcode, Or.inl rfl⟩
    intro i hi1 hi2
    simp [List.getElem_map]
  · refine ⟨_, _, dictSet fieldsj "body" v, hb, by simp, ?_, h1, ?_, Or.inr
      ⟨s, v, hbod, hparse, dictGet_dictSet_self fieldsj "body" v⟩⟩
    · intro i hi1 hi2
      simp [List.getElem_map]
    · rw [dictGet_dictSet_ne fieldsj "body" "code" v (by decide)]
      exact hcode

/-- C9 witness: a two-item chunk whose first sub-response has code 500 and
whose second has code 200; both appear in order, the 500 entry with its
code and re-parsed body, the 200 sibling unaffected. -/
theorem c9_per_item_isolation_witness :
    ∃ calls results fieldsOut,
      make_graph_api_batch_call
          (fun p => p.batch.map (fun item =>
            if item.relative_url = "a"
            then Json.obj [("code", Json.num 500), ("body", Json.str "0")]
            else Json.obj [("code", Json.num 200), ("body", Json.str "1")]))
          [⟨"GET", "a"⟩, ⟨"GET", "b"⟩] "tok" = .ok (calls, results) ∧
      results.length = ([⟨"GET", "a"⟩, ⟨"GET", "b"⟩] : List BatchItem).length ∧
      (∀ i (h1 : i < results.length)
        (h2 : i < ([⟨"GET", "a"⟩, ⟨"GET", "b"⟩] : List BatchItem).length),
        results[i] = (fun item : BatchItem =>
          if item.relative_url = "a"
          then Json.obj [("code", Json.num 500), ("body", Json.num 0)]
          else Json.obj [("code", Json.num 200), ("body", Json.num 1)])
          ([⟨"GET", "a"⟩, ⟨"GET", "b"⟩] : List BatchItem)[i]) ∧
      (fun item : BatchItem =>
          if item.relative_url = "a"
          then Json.obj [("code", Json.num 500), ("body", Json.num 0)]
          else Json.obj [("code", Json.num 200), ("body", Json.num 1)])
          ([⟨"GET", "a"⟩, ⟨"GET", "b"⟩] : List BatchItem)[0] = .obj fieldsOut ∧
      dictGet fieldsOut "code" = some (Json.num 500) ∧
      (dictGet fieldsOut "body" =
          dictGet [("code", Json.num 500), ("body", Json.str "0")] "body" ∨
        ∃ s v, dictGet [("code", Json.num 500), ("body", Json.str "0")] "body" =
            some (.str s) ∧ parseJson s = some v ∧
          dictGet fieldsOut "body" = some v) :=
  c9_per_item_isolation
    (fun p => p.batch.map (fun item =>
      if item.relative_url = "a"
      then Json.obj [("code", Json.num 500), ("body", Json.str "0")]
      else Json.obj [("code", Json.num 200), ("body", Json.str "1")]))
    "tok" [⟨"GET", "a"⟩, ⟨"GET", "b"⟩]
    (fun item =>
      if item.relative_url = "a"
      then Json.obj [("code", Json.num 500), ("body", Json.str "0")]
      else Json.obj [("code", Json.num 200), ("body", Json.str "1")])
    (fun item =>
      if item.relative_url = "a"
      then Json.obj [("code", Json.num 500), ("body", Json.num 0)]
      else Json.obj [("code", Json.num 200), ("body", Json.num 1)])
    (fun p => rfl)
    (fun item => by
      dsimp only
      by_cases h : item.relative_url = "a"
      · rw [if_pos h, if_pos h]
        rfl
      · rw [if_neg h, if_neg h]
        rfl)
    0 (by decide) [("code", Json.num 500), ("body", Json.str "0")] 500
    rfl rfl (by decide)

end MetaAdsMcp
